import Mathlib

/-!
# dragonfly/world/provider.go : the `Provider` contract and `NoIOProvider`

A shallow embedding of `NoIOProvider` (provider.go:65-146), the provider that performs no
disk I/O, together with a call/trace semantics over the methods of the `Provider`
interface (provider.go:12-63).

Conventions of the embedding:
* a Go `error` is `Option Error`, `nil` being `none`;
* a Go pointer `*chunk.Chunk` is `Option Chunk`, `nil` being `none`;
* a Go slice `[]T` is `Option (List T)`, the `nil` slice being `none`; `len` is its length;
* a Go map is an association list;
* `int`, `int32` and `int64` values are `Int` (the methods do no arithmetic);
* every method has a value receiver `(NoIOProvider)`: it receives a copy, so the caller's
  provider value after the call is the value before it.
-/

namespace world

/-! ## Types declared outside provider.go -/

/-- Modelled from the spec: the Go `error` interface is a builtin and has no declaration under
src/; a non-nil error is an opaque failure report, here carrying its message. -/
structure Error where
  msg : String
deriving DecidableEq, Repr

/-- Modelled from the spec: `ChunkPos` is declared outside provider.go; the spec (section 3)
gives it as a 2D integer coordinate (x, z). -/
structure ChunkPos where
  x : Int
  z : Int
deriving DecidableEq, Repr

/-- Modelled from the spec: `BlockPos` is declared outside provider.go; the spec (section 3)
gives it as a 3D integer block coordinate, and provider.go:140 builds one from three
integers as `BlockPos{0, 30, 0}`. -/
structure BlockPos where
  x : Int
  y : Int
  z : Int
deriving DecidableEq, Repr

/-- Modelled from the spec: `chunk.Chunk` is declared in a package that is not under src/; the
spec (section 3) gives it as an opaque blob of block/biome data. -/
structure Chunk where
  data : List Nat
deriving DecidableEq, Repr

/-- Modelled from the spec: `Entity` is declared outside provider.go; the spec (section 3)
gives it as an opaque entity record. -/
structure Entity where
  id : Nat
deriving DecidableEq, Repr

/-- Modelled from the spec: the values of Go's `interface{}` that occur in block NBT records;
the spec (section 6) gives the record as a generic structured key-value record. -/
inductive NBTValue where
  | str (s : String)
  | int (i : Int)
  | bool (b : Bool)
deriving DecidableEq, Repr

/-- The Go type `map[string]interface{}` of provider.go:41,44. -/
abbrev NBTRecord := List (String × NBTValue)

/-- The Go type `map[[3]int]map[string]interface{}` of provider.go:44. -/
abbrev BlockNBTMap := List ((Int × Int × Int) × NBTRecord)

/-- Modelled from the spec: package `gamemode` is not under src/; the spec (section 4.1) gives
game modes as a closed enumerated set of opaque tagged values. provider.go:76 names the
variant `Adventure`. -/
inductive GameMode where
  | Survival
  | Creative
  | Adventure
  | Spectator
deriving DecidableEq, Repr

/-- Modelled from the spec: package `difficulty` is not under src/; the spec (section 4.1) gives
difficulties as a closed enumerated set of opaque tagged values. provider.go:70 names the
variant `Normal`. -/
inductive Difficulty where
  | Peaceful
  | Easy
  | Normal
  | Hard
deriving DecidableEq, Repr

/-- Go's builtin `len` on a slice: the nil slice has length 0. -/
def len {α : Type} : Option (List α) → Nat
  | none => 0
  | some xs => xs.length

/-! ## NoIOProvider (provider.go:65-146) -/

/-- provider.go:67 `type NoIOProvider struct{}`: a struct without fields. -/
structure NoIOProvider where
deriving DecidableEq, Repr

namespace NoIOProvider

/-- provider.go:70 -/
def LoadDifficulty (_ : NoIOProvider) : Difficulty := Difficulty.Normal

/-- provider.go:73, empty body. -/
def SaveDifficulty (_ : NoIOProvider) (_ : Difficulty) : Unit := ()

/-- provider.go:76 -/
def LoadDefaultGameMode (_ : NoIOProvider) : GameMode := GameMode.Adventure

/-- provider.go:79, empty body. -/
def SaveDefaultGameMode (_ : NoIOProvider) (_ : GameMode) : Unit := ()

/-- provider.go:82, empty body. -/
def SetWorldSpawn (_ : NoIOProvider) (_ : BlockPos) : Unit := ()

/-- provider.go:85, empty body. -/
def SaveTimeCycle (_ : NoIOProvider) (_ : Bool) : Unit := ()

/-- provider.go:88-90 -/
def LoadTimeCycle (_ : NoIOProvider) : Bool := true

/-- provider.go:93-95 -/
def LoadTime (_ : NoIOProvider) : Int := 0

/-- provider.go:98, empty body. -/
def SaveTime (_ : NoIOProvider) (_ : Int) : Unit := ()

/-- provider.go:101-103 `return nil, nil` -/
def LoadEntities (_ : NoIOProvider) (_ : ChunkPos) : Option (List Entity) × Option Error :=
  (none, none)

/-- provider.go:106-108 `return nil` -/
def SaveEntities (_ : NoIOProvider) (_ : ChunkPos) (_ : Option (List Entity)) : Option Error :=
  none

/-- provider.go:111-113 `return nil, nil` -/
def LoadBlockNBT (_ : NoIOProvider) (_ : ChunkPos) : Option (List NBTRecord) × Option Error :=
  (none, none)

/-- provider.go:116-118 `return nil` -/
def SaveBlockNBT (_ : NoIOProvider) (_ : ChunkPos) (_ : BlockNBTMap) : Option Error :=
  none

/-- provider.go:121-123 `return nil` -/
def SaveChunk (_ : NoIOProvider) (_ : ChunkPos) (_ : Option Chunk) : Option Error :=
  none

/-- provider.go:126-128 `return nil, false, nil`: the chunk, the `exists` flag, the error. -/
def LoadChunk (_ : NoIOProvider) (_ : ChunkPos) : Option Chunk × Bool × Option Error :=
  (none, false, none)

/-- provider.go:131-133 -/
def WorldName (_ : NoIOProvider) : String := ""

/-- provider.go:136, empty body. -/
def SetWorldName (_ : NoIOProvider) (_ : String) : Unit := ()

/-- provider.go:139-141 -/
def WorldSpawn (_ : NoIOProvider) : BlockPos := BlockPos.mk 0 30 0

/-- provider.go:144-146 `return nil` -/
def Close (_ : NoIOProvider) : Option Error := none

end NoIOProvider

/-! ## Calls on the `Provider` interface (provider.go:12-63) and their traces -/

/-- The writing methods of `Provider`, each with its arguments. -/
inductive SaveCall where
  | SaveChunk (position : ChunkPos) (c : Option Chunk)
  | SaveEntities (position : ChunkPos) (entities : Option (List Entity))
  | SaveBlockNBT (position : ChunkPos) (data : BlockNBTMap)
  | SaveTime (time : Int)
  | SaveTimeCycle (running : Bool)
  | SaveDefaultGameMode (mode : GameMode)
  | SaveDifficulty (d : Difficulty)
  | SetWorldName (name : String)
  | SetWorldSpawn (pos : BlockPos)
deriving DecidableEq, Repr

/-- The reading methods of `Provider`, each with its arguments. -/
inductive LoadCall where
  | LoadChunk (position : ChunkPos)
  | LoadEntities (position : ChunkPos)
  | LoadBlockNBT (position : ChunkPos)
  | LoadTime
  | LoadTimeCycle
  | LoadDefaultGameMode
  | LoadDifficulty
  | WorldName
  | WorldSpawn
deriving DecidableEq, Repr

/-- A method call on a `Provider`: a write, a read, or `Close` (from `io.Closer`). -/
inductive Call where
  | save (s : SaveCall)
  | load (l : LoadCall)
  | close
deriving DecidableEq, Repr

/-- What a method call hands back to its caller. -/
inductive Result where
  | unit
  | err (e : Option Error)
  | chunk (r : Option Chunk × Bool × Option Error)
  | entities (r : Option (List Entity) × Option Error)
  | blockNBT (r : Option (List NBTRecord) × Option Error)
  | time (t : Int)
  | timeCycle (running : Bool)
  | gameMode (m : GameMode)
  | difficulty (d : Difficulty)
  | name (s : String)
  | spawn (pos : BlockPos)
deriving DecidableEq, Repr

/-- The result of a writing method of `NoIOProvider`. -/
def saveResult (p : NoIOProvider) : SaveCall → Result
  | .SaveChunk position c => .err (p.SaveChunk position c)
  | .SaveEntities position entities => .err (p.SaveEntities position entities)
  | .SaveBlockNBT position data => .err (p.SaveBlockNBT position data)
  | .SaveTime t => let _ := p.SaveTime t; .unit
  | .SaveTimeCycle running => let _ := p.SaveTimeCycle running; .unit
  | .SaveDefaultGameMode mode => let _ := p.SaveDefaultGameMode mode; .unit
  | .SaveDifficulty d => let _ := p.SaveDifficulty d; .unit
  | .SetWorldName n => let _ := p.SetWorldName n; .unit
  | .SetWorldSpawn pos => let _ := p.SetWorldSpawn pos; .unit

/-- The result of a reading method of `NoIOProvider`. -/
def loadResult (p : NoIOProvider) : LoadCall → Result
  | .LoadChunk position => .chunk (p.LoadChunk position)
  | .LoadEntities position => .entities (p.LoadEntities position)
  | .LoadBlockNBT position => .blockNBT (p.LoadBlockNBT position)
  | .LoadTime => .time p.LoadTime
  | .LoadTimeCycle => .timeCycle p.LoadTimeCycle
  | .LoadDefaultGameMode => .gameMode p.LoadDefaultGameMode
  | .LoadDifficulty => .difficulty p.LoadDifficulty
  | .WorldName => .name p.WorldName
  | .WorldSpawn => .spawn p.WorldSpawn

/-- One method call on a `NoIOProvider` held by the caller: the result, and the caller's
provider afterwards. Every method has a value receiver, so the callee works on a copy and the
caller keeps `p`. -/
def call (p : NoIOProvider) : Call → Result × NoIOProvider
  | .save s => (saveResult p s, p)
  | .load l => (loadResult p l, p)
  | .close => (.err p.Close, p)

/-- A sequence of calls made one after the other on the caller's provider: the results in
order, and the provider at the end. -/
def run (p : NoIOProvider) : List Call → List Result × NoIOProvider
  | [] => ([], p)
  | c :: cs =>
    let (r, p1) := call p c
    let (rs, p2) := run p1 cs
    (r :: rs, p2)

/-- The result of call `c` when it is made after the calls `pre`. -/
def resultAfter (p : NoIOProvider) (pre : List Call) (c : Call) : Result :=
  (call (run p pre).2 c).1

/-- The three outcomes of `Provider.LoadChunk` (doc comment provider.go:24-29). -/
inductive ChunkOutcome where
  | present
  | absent
  | corrupt
deriving DecidableEq, Repr

/-- Reading of a `LoadChunk` result by the doc comment of `Provider.LoadChunk`
(provider.go:24-28): a non-nil chunk with `exists` true and a nil error is a successful load;
a nil chunk with a nil error and `exists` false says no chunk was saved; a nil chunk with
`exists` true and a non-nil error says the data was invalid. Any other triple is none of the
three. -/
def chunkOutcome : Option Chunk × Bool × Option Error → Option ChunkOutcome
  | (some _, true, none) => some .present
  | (none, false, none) => some .absent
  | (none, true, some _) => some .corrupt
  | _ => none

/-! ## A reference provider backed by maps, after the spec -/

/-- The sequence a Go slice stands for: the nil slice and the empty slice both stand for the
empty sequence. -/
def seqOf {α : Type} : Option (List α) → List α
  | none => []
  | some xs => xs

/-- Reference provider in the spec's words (sections 3 and 4.1): chunk position is the sole
key for chunk, entity-set and block-metadata storage, with at most one stored value per kind
per position. Each store is a map from chunk position to the stored value, kept as an
association list whose first entry for a key is the stored one. -/
structure RefProvider where
  chunks : List (ChunkPos × Chunk)
  entities : List (ChunkPos × List Entity)
  blockNBT : List (ChunkPos × List NBTRecord)
deriving DecidableEq, Repr

namespace RefProvider

/-- The reference provider that has never been written to: all three maps are empty. -/
def empty : RefProvider := RefProvider.mk [] [] []

/-- Spec 4.1, chunk load: looks the position up; data saved there is returned with
exists = true and a nil error, and a position never saved gives exists = false, a nil error
and a nil chunk. -/
def LoadChunk (s : RefProvider) (position : ChunkPos) : Option Chunk × Bool × Option Error :=
  match s.chunks.lookup position with
  | some c => (some c, true, none)
  | none => (none, false, none)

/-- Spec 4.1, chunk save: overwrites any existing data at the position. -/
def SaveChunk (s : RefProvider) (position : ChunkPos) (c : Chunk) : Option Error × RefProvider :=
  (none, { s with chunks := (position, c) :: s.chunks })

/-- Spec 4.1, entity load: the stored sequence; empty or absent data yields an empty sequence
with a nil error. -/
def LoadEntities (s : RefProvider) (position : ChunkPos) : List Entity × Option Error :=
  ((s.entities.lookup position).getD [], none)

/-- Spec 4.1, entity save: replaces the full entity set for that position. -/
def SaveEntities (s : RefProvider) (position : ChunkPos) (es : List Entity) :
    Option Error × RefProvider :=
  (none, { s with entities := (position, es) :: s.entities })

/-- Spec 4.1, block metadata load: the stored sequence of records, or the empty sequence,
with a nil error. -/
def LoadBlockNBT (s : RefProvider) (position : ChunkPos) : List NBTRecord × Option Error :=
  ((s.blockNBT.lookup position).getD [], none)

/-- Spec 4.1, block metadata save: takes a keyed mapping from coordinate to record; the load
hands the records back as a sequence. -/
def SaveBlockNBT (s : RefProvider) (position : ChunkPos) (data : BlockNBTMap) :
    Option Error × RefProvider :=
  (none, { s with blockNBT := (position, data.map Prod.snd) :: s.blockNBT })

end RefProvider

/-! ## Trace lemmas -/

/-- A single call hands the caller back the provider it was made on. -/
theorem call_snd (p : NoIOProvider) (c : Call) : (call p c).2 = p := by
  cases c <;> rfl

/-- Unfolding of `run` on a non-empty sequence. -/
theorem run_cons (p : NoIOProvider) (c : Call) (cs : List Call) :
    run p (c :: cs) = ((call p c).1 :: (run (call p c).2 cs).1, (run (call p c).2 cs).2) := by
  rfl

/-- The provider at the end of a sequence of calls is the provider at its start. -/
theorem run_snd (p : NoIOProvider) (cs : List Call) : (run p cs).2 = p := by
  induction cs generalizing p with
  | nil => rfl
  | cons c cs ih => exact (ih (call p c).2).trans (call_snd p c)

/-- The results of two sequences of calls made one after the other. -/
theorem run_append (p : NoIOProvider) (xs ys : List Call) :
    (run p (xs ++ ys)).1 = (run p xs).1 ++ (run (run p xs).2 ys).1 := by
  induction xs generalizing p with
  | nil => rfl
  | cons c cs ih => simp only [List.cons_append, run_cons, ih]

/-- A call made after any sequence of calls gives the result it gives when made first. -/
theorem resultAfter_eq (p : NoIOProvider) (pre : List Call) (c : Call) :
    resultAfter p pre c = (call p c).1 := by
  unfold resultAfter
  rw [run_snd]

/-! ## The claims -/

/-- C1: on NoIOProvider saves never influence later loads. After every finite sequence `pre`
of calls (Save*/Set* calls with arbitrary arguments, interleaved in any order with loads),
every load call returns exactly the result it returns on a provider on which no call was ever
made; and SaveBlockNBT at (2,3) with the map (1,64,2) to id=chest, followed by LoadBlockNBT
at (2,3), returns a sequence of length 0 with a nil error. -/
theorem C1_saves_never_influence_loads :
    (∀ (p : NoIOProvider) (pre : List Call) (l : LoadCall),
      resultAfter p pre (Call.load l) = resultAfter NoIOProvider.mk [] (Call.load l)) ∧
    (∃ r : Option (List NBTRecord) × Option Error,
      resultAfter NoIOProvider.mk
        [Call.save (SaveCall.SaveBlockNBT ⟨2, 3⟩ [((1, 64, 2), [("id", NBTValue.str "chest")])])]
        (Call.load (LoadCall.LoadBlockNBT ⟨2, 3⟩)) = Result.blockNBT r ∧
      len r.1 = 0 ∧ r.2 = none) := by
  refine ⟨?_, ⟨(none, none), rfl, rfl, rfl⟩⟩
  intro p pre l
  rw [resultAfter_eq, resultAfter_eq]

/-- C2: for every chunk position, NoIOProvider.LoadChunk returns exactly (nil, false, nil),
which is the absent outcome of the three-way LoadChunk contract, and so neither the present
nor the corrupt outcome. -/
theorem C2_LoadChunk_absent (p : NoIOProvider) (position : ChunkPos) :
    p.LoadChunk position = (none, false, none) ∧
    chunkOutcome (p.LoadChunk position) = some ChunkOutcome.absent ∧
    chunkOutcome (p.LoadChunk position) ≠ some ChunkOutcome.present ∧
    chunkOutcome (p.LoadChunk position) ≠ some ChunkOutcome.corrupt := by
  refine ⟨rfl, rfl, ?_, ?_⟩
  · simp [NoIOProvider.LoadChunk, chunkOutcome]
  · simp [NoIOProvider.LoadChunk, chunkOutcome]

/-- C3, counterexample: the chunk round-trip law fails on NoIOProvider. SaveChunk at (0,0) of
a non-nil chunk returns a nil error, and the LoadChunk at (0,0) that follows does not return
that chunk with exists = true: it returns (nil, false, nil). -/
theorem C3_roundtrip_fails :
    NoIOProvider.SaveChunk NoIOProvider.mk ⟨0, 0⟩ (some ⟨[1]⟩) = none ∧
    resultAfter NoIOProvider.mk [Call.save (SaveCall.SaveChunk ⟨0, 0⟩ (some ⟨[1]⟩))]
        (Call.load (LoadCall.LoadChunk ⟨0, 0⟩))
      ≠ Result.chunk (some ⟨[1]⟩, true, none) ∧
    resultAfter NoIOProvider.mk [Call.save (SaveCall.SaveChunk ⟨0, 0⟩ (some ⟨[1]⟩))]
        (Call.load (LoadCall.LoadChunk ⟨0, 0⟩))
      = Result.chunk (none, false, none) := by
  decide

/-- C3, amended: for every chunk position and every chunk (nil included), SaveChunk on
NoIOProvider returns a nil error, and a LoadChunk at the same position that follows it returns
(nil, false, nil): the saved chunk is not kept. -/
theorem C3_save_then_load_absent (p : NoIOProvider) (position : ChunkPos) (c : Option Chunk) :
    p.SaveChunk position c = none ∧
    resultAfter p [Call.save (SaveCall.SaveChunk position c)]
        (Call.load (LoadCall.LoadChunk position))
      = Result.chunk (none, false, none) := by
  exact ⟨rfl, rfl⟩

/-- C4: for every chunk position, NoIOProvider.LoadEntities and NoIOProvider.LoadBlockNBT each
return a sequence of length 0 together with a nil error. -/
theorem C4_LoadEntities_LoadBlockNBT_empty (p : NoIOProvider) (position : ChunkPos) :
    len (p.LoadEntities position).1 = 0 ∧ (p.LoadEntities position).2 = none ∧
    len (p.LoadBlockNBT position).1 = 0 ∧ (p.LoadBlockNBT position).2 = none := by
  exact ⟨rfl, rfl, rfl, rfl⟩

/-- C5: for every chunk position and every input (any chunk, nil included; any entity list;
any block-NBT map), SaveChunk, SaveEntities and SaveBlockNBT on NoIOProvider return a nil
error, and the input is discarded: the caller's provider after the save is the provider
before it, and every sequence of calls made after the save gives the results it gives without
the save. -/
theorem C5_saves_succeed_and_discard (p : NoIOProvider) (position : ChunkPos)
    (c : Option Chunk) (entities : Option (List Entity)) (data : BlockNBTMap)
    (cs : List Call) :
    p.SaveChunk position c = none ∧
    p.SaveEntities position entities = none ∧
    p.SaveBlockNBT position data = none ∧
    run p (Call.save (SaveCall.SaveChunk position c) :: cs)
      = (Result.err none :: (run p cs).1, (run p cs).2) ∧
    run p (Call.save (SaveCall.SaveEntities position entities) :: cs)
      = (Result.err none :: (run p cs).1, (run p cs).2) ∧
    run p (Call.save (SaveCall.SaveBlockNBT position data) :: cs)
      = (Result.err none :: (run p cs).1, (run p cs).2) := by
  exact ⟨rfl, rfl, rfl, rfl, rfl, rfl⟩

/-- C6: NoIOProvider.WorldSpawn returns the block position (0, 30, 0), also after
SetWorldSpawn was called any number of times with any block positions `qs`; and
SetWorldSpawn at (0, 30, 0) followed by WorldSpawn returns (0, 30, 0). -/
theorem C6_WorldSpawn_fixed (p : NoIOProvider) (qs : List BlockPos) :
    p.WorldSpawn = BlockPos.mk 0 30 0 ∧
    resultAfter p (qs.map (fun q => Call.save (SaveCall.SetWorldSpawn q)))
        (Call.load LoadCall.WorldSpawn)
      = Result.spawn (BlockPos.mk 0 30 0) ∧
    resultAfter p [Call.save (SaveCall.SetWorldSpawn (BlockPos.mk 0 30 0))]
        (Call.load LoadCall.WorldSpawn)
      = Result.spawn (BlockPos.mk 0 30 0) := by
  refine ⟨rfl, ?_, rfl⟩
  rw [resultAfter_eq]
  rfl

/-- C7, counterexample: the world-scalar settings are not last-write-wins on NoIOProvider.
For the name "overworld", the spawn (1, 2, 3), the time 5, the time cycle false, the game mode
Creative and the difficulty Hard, the setter followed by the matching getter does not return
the value that was set. -/
theorem C7_last_write_wins_fails :
    resultAfter NoIOProvider.mk [Call.save (SaveCall.SetWorldName "overworld")]
        (Call.load LoadCall.WorldName) ≠ Result.name "overworld" ∧
    resultAfter NoIOProvider.mk [Call.save (SaveCall.SetWorldSpawn (BlockPos.mk 1 2 3))]
        (Call.load LoadCall.WorldSpawn) ≠ Result.spawn (BlockPos.mk 1 2 3) ∧
    resultAfter NoIOProvider.mk [Call.save (SaveCall.SaveTime 5)]
        (Call.load LoadCall.LoadTime) ≠ Result.time 5 ∧
    resultAfter NoIOProvider.mk [Call.save (SaveCall.SaveTimeCycle false)]
        (Call.load LoadCall.LoadTimeCycle) ≠ Result.timeCycle false ∧
    resultAfter NoIOProvider.mk [Call.save (SaveCall.SaveDefaultGameMode GameMode.Creative)]
        (Call.load LoadCall.LoadDefaultGameMode) ≠ Result.gameMode GameMode.Creative ∧
    resultAfter NoIOProvider.mk [Call.save (SaveCall.SaveDifficulty Difficulty.Hard)]
        (Call.load LoadCall.LoadDifficulty) ≠ Result.difficulty Difficulty.Hard := by
  decide

/-- C7, amended: on NoIOProvider the setters retain nothing. For every value, the setter
followed by the matching getter returns the fixed value of that getter (the empty name, the
spawn (0, 30, 0), the time 0, the time cycle true, the game mode Adventure, the difficulty
Normal), so it returns the value that was set exactly when that value is the fixed one. -/
theorem C7_setter_then_getter_fixed (p : NoIOProvider) (n : String) (q : BlockPos) (t : Int)
    (b : Bool) (m : GameMode) (d : Difficulty) :
    (resultAfter p [Call.save (SaveCall.SetWorldName n)] (Call.load LoadCall.WorldName)
        = Result.name "" ∧
      (resultAfter p [Call.save (SaveCall.SetWorldName n)] (Call.load LoadCall.WorldName)
        = Result.name n ↔ n = "")) ∧
    (resultAfter p [Call.save (SaveCall.SetWorldSpawn q)] (Call.load LoadCall.WorldSpawn)
        = Result.spawn (BlockPos.mk 0 30 0) ∧
      (resultAfter p [Call.save (SaveCall.SetWorldSpawn q)] (Call.load LoadCall.WorldSpawn)
        = Result.spawn q ↔ q = BlockPos.mk 0 30 0)) ∧
    (resultAfter p [Call.save (SaveCall.SaveTime t)] (Call.load LoadCall.LoadTime)
        = Result.time 0 ∧
      (resultAfter p [Call.save (SaveCall.SaveTime t)] (Call.load LoadCall.LoadTime)
        = Result.time t ↔ t = 0)) ∧
    (resultAfter p [Call.save (SaveCall.SaveTimeCycle b)] (Call.load LoadCall.LoadTimeCycle)
        = Result.timeCycle true ∧
      (resultAfter p [Call.save (SaveCall.SaveTimeCycle b)] (Call.load LoadCall.LoadTimeCycle)
        = Result.timeCycle b ↔ b = true)) ∧
    (resultAfter p [Call.save (SaveCall.SaveDefaultGameMode m)]
          (Call.load LoadCall.LoadDefaultGameMode)
        = Result.gameMode GameMode.Adventure ∧
      (resultAfter p [Call.save (SaveCall.SaveDefaultGameMode m)]
          (Call.load LoadCall.LoadDefaultGameMode)
        = Result.gameMode m ↔ m = GameMode.Adventure)) ∧
    (resultAfter p [Call.save (SaveCall.SaveDifficulty d)] (Call.load LoadCall.LoadDifficulty)
        = Result.difficulty Difficulty.Normal ∧
      (resultAfter p [Call.save (SaveCall.SaveDifficulty d)] (Call.load LoadCall.LoadDifficulty)
        = Result.difficulty d ↔ d = Difficulty.Normal)) := by
  simp only [resultAfter_eq]
  refine ⟨⟨rfl, ?_⟩, ⟨rfl, ?_⟩, ⟨rfl, ?_⟩, ⟨rfl, ?_⟩, ⟨rfl, ?_⟩, ⟨rfl, ?_⟩⟩
  · simp only [call, loadResult, NoIOProvider.WorldName, Result.name.injEq]
    exact eq_comm
  · simp only [call, loadResult, NoIOProvider.WorldSpawn, Result.spawn.injEq]
    exact eq_comm
  · simp only [call, loadResult, NoIOProvider.LoadTime, Result.time.injEq]
    exact eq_comm
  · simp only [call, loadResult, NoIOProvider.LoadTimeCycle, Result.timeCycle.injEq]
    exact eq_comm
  · simp only [call, loadResult, NoIOProvider.LoadDefaultGameMode, Result.gameMode.injEq]
    exact eq_comm
  · simp only [call, loadResult, NoIOProvider.LoadDifficulty, Result.difficulty.injEq]
    exact eq_comm

/-- C8: on NoIOProvider, WorldName returns the empty string, LoadTime returns 0 and
LoadTimeCycle returns true, also after any sequence `pre` of earlier calls followed by
SetWorldName of any string, SaveTime of any integer and SaveTimeCycle of any boolean; in
particular LoadTimeCycle returns true right after SaveTimeCycle(false). -/
theorem C8_name_time_cycle_fixed (p : NoIOProvider) (pre : List Call) (n : String) (t : Int)
    (b : Bool) :
    p.WorldName = "" ∧ p.LoadTime = 0 ∧ p.LoadTimeCycle = true ∧
    resultAfter p (pre ++ [Call.save (SaveCall.SetWorldName n)]) (Call.load LoadCall.WorldName)
      = Result.name "" ∧
    resultAfter p (pre ++ [Call.save (SaveCall.SaveTime t)]) (Call.load LoadCall.LoadTime)
      = Result.time 0 ∧
    resultAfter p (pre ++ [Call.save (SaveCall.SaveTimeCycle b)])
        (Call.load LoadCall.LoadTimeCycle)
      = Result.timeCycle true ∧
    resultAfter p [Call.save (SaveCall.SaveTimeCycle false)] (Call.load LoadCall.LoadTimeCycle)
      = Result.timeCycle true := by
  simp only [resultAfter_eq]
  exact ⟨rfl, rfl, rfl, rfl, rfl, rfl, rfl⟩

/-- C9: on NoIOProvider, LoadDefaultGameMode returns the game mode Adventure and
LoadDifficulty returns the difficulty Normal, also after any sequence `pre` of earlier calls
followed by SaveDefaultGameMode of any game mode and SaveDifficulty of any difficulty. -/
theorem C9_gamemode_difficulty_fixed (p : NoIOProvider) (pre : List Call) (m : GameMode)
    (d : Difficulty) :
    p.LoadDefaultGameMode = GameMode.Adventure ∧ p.LoadDifficulty = Difficulty.Normal ∧
    resultAfter p (pre ++ [Call.save (SaveCall.SaveDefaultGameMode m)])
        (Call.load LoadCall.LoadDefaultGameMode)
      = Result.gameMode GameMode.Adventure ∧
    resultAfter p (pre ++ [Call.save (SaveCall.SaveDifficulty d)])
        (Call.load LoadCall.LoadDifficulty)
      = Result.difficulty Difficulty.Normal := by
  simp only [resultAfter_eq]
  exact ⟨rfl, rfl, rfl, rfl⟩

/-- C10: NoIOProvider.Close returns a nil error on every call: after any sequence `pre` of
other calls, and again on the call right after a Close. Calling it leaves the results of all
other calls unchanged: a sequence of calls with a Close put in anywhere gives, next to the nil
error of that Close, the results it gives without it, and the caller's provider after Close is
the provider before it. -/
theorem C10_Close_succeeds_idempotent (p : NoIOProvider) (pre post : List Call) :
    p.Close = none ∧
    resultAfter p pre Call.close = Result.err none ∧
    resultAfter p (pre ++ [Call.close]) Call.close = Result.err none ∧
    (call p Call.close).2 = p ∧
    (run p (pre ++ Call.close :: post)).1
      = (run p pre).1 ++ Result.err none :: (run p post).1 ∧
    (run p (pre ++ post)).1 = (run p pre).1 ++ (run p post).1 := by
  refine ⟨rfl, ?_, ?_, rfl, ?_, ?_⟩
  · rw [resultAfter_eq]; rfl
  · rw [resultAfter_eq]; rfl
  · rw [run_append, run_snd, run_cons, call_snd]; rfl
  · rw [run_append, run_snd]

/-- The reference provider keeps what is saved: a chunk saved at a position is loaded back
from that position with exists = true, and an entity set saved at a position is loaded back. -/
theorem RefProvider.load_after_save (s : RefProvider) (position : ChunkPos) (c : Chunk)
    (es : List Entity) :
    (s.SaveChunk position c).2.LoadChunk position = (some c, true, none) ∧
    (s.SaveEntities position es).2.LoadEntities position = (es, none) := by
  simp [RefProvider.SaveChunk, RefProvider.LoadChunk, RefProvider.SaveEntities,
    RefProvider.LoadEntities]

/-- C11: on loads NoIOProvider is indistinguishable from the map-backed reference provider
that has never been written to. For every chunk position, LoadChunk on NoIOProvider returns
the triple that LoadChunk returns on the empty reference provider, and LoadEntities and
LoadBlockNBT return the sequence and the error that they return on the empty reference
provider. -/
theorem C11_loads_refine_empty_reference (p : NoIOProvider) (position : ChunkPos) :
    p.LoadChunk position = RefProvider.empty.LoadChunk position ∧
    (seqOf (p.LoadEntities position).1, (p.LoadEntities position).2)
      = RefProvider.empty.LoadEntities position ∧
    (seqOf (p.LoadBlockNBT position).1, (p.LoadBlockNBT position).2)
      = RefProvider.empty.LoadBlockNBT position := by
  exact ⟨rfl, rfl, rfl⟩

/-- C12: entity saves on NoIOProvider do not merge. For every chunk position and all entity
lists A and B, after SaveEntities of A followed by SaveEntities of B at that position, an
entity of A that is not in B is not among the entities that LoadEntities returns there. -/
theorem C12_entities_full_replace (p : NoIOProvider) (position : ChunkPos)
    (A B : Option (List Entity)) (e : Entity) (_hA : e ∈ seqOf A) (_hB : e ∉ seqOf B) :
    e ∉ seqOf ((run p [Call.save (SaveCall.SaveEntities position A),
      Call.save (SaveCall.SaveEntities position B)]).2.LoadEntities position).1 := by
  intro h
  simp [NoIOProvider.LoadEntities, seqOf] at h

/-- C12, witness: with A the entities 1 and 2 and B the entity 2 alone, entity 1 is in A and
not in B, and after the two saves at (0, 0) it is not among the loaded entities. -/
theorem C12_entities_full_replace_witness :
    (Entity.mk 1) ∈ seqOf (some [Entity.mk 1, Entity.mk 2]) ∧
    (Entity.mk 1) ∉ seqOf (some [Entity.mk 2]) ∧
    (Entity.mk 1) ∉ seqOf ((run NoIOProvider.mk
      [Call.save (SaveCall.SaveEntities ⟨0, 0⟩ (some [Entity.mk 1, Entity.mk 2])),
       Call.save (SaveCall.SaveEntities ⟨0, 0⟩ (some [Entity.mk 2]))]).2.LoadEntities
        ⟨0, 0⟩).1 :=
  ⟨by decide, by decide,
    C12_entities_full_replace NoIOProvider.mk ⟨0, 0⟩ (some [Entity.mk 1, Entity.mk 2])
      (some [Entity.mk 2]) (Entity.mk 1) (by decide) (by decide)⟩

/-- C13: NoIOProvider holds no mutable state. Its type has exactly one value, the empty
struct; every call (each setter, saver and loader with any arguments, and Close) and every
sequence of calls leaves the caller's provider as it was; and any two NoIOProvider values give
equal results for every call. -/
theorem C13_no_mutable_state (p q : NoIOProvider) (c : Call) (cs : List Call) :
    (∀ x : NoIOProvider, x = NoIOProvider.mk) ∧
    (call p c).2 = p ∧
    (run p cs).2 = p ∧
    (call p c).1 = (call q c).1 ∧
    (run p cs).1 = (run q cs).1 := by
  have hx : ∀ x : NoIOProvider, x = NoIOProvider.mk := fun x => by cases x; rfl
  refine ⟨hx, call_snd p c, run_snd p cs, ?_, ?_⟩
  · rw [hx p, hx q]
  · rw [hx p, hx q]

end world
